import Mathlib

/-!
Shallow embedding of the geospatial tutorial notebook
(src/intro-geopands.ipynb).  The notebook is a linear sequence of
pandas / geopandas / shapely library calls over two CSV tables and one
GeoJSON boundary file.  Each operation the notebook performs is embedded
as a pure Lean function; CSV numeric cells are modelled as rationals,
geometric coordinates as real pairs.
-/

namespace Tutorial

/-- A planar geometry point, as produced by gpd.points_from_xy: an
(x, y) coordinate pair in the frame's coordinate reference system. -/
abbrev Point : Type := ℝ × ℝ

/-- One row of Places_Full.csv, after the notebook's rename of the
column header from class to place_class (the raw, header-level view of
that rename is modelled separately on RawFrame).  Header:
name,address,city,lat,lng,place_id,rating,class,type.  A missing city
cell (pandas NaN) is the None value. -/
structure PlaceRow where
  name : String
  address : String
  city : Option String
  lat : ℚ
  lng : ℚ
  place_id : String
  rating : ℚ
  place_class : String
  type : Option String
deriving DecidableEq

/-- One row of Dist_Out.csv.  Header: class,departure_time,
distance.value,duration.value,duration_in_traffic.value,end_lat,
end_lon,fare.value,mode,origin,pair,place_id,rank,start_lat,start_lon,
status.  Dots in CSV headers become underscores in field names. -/
structure TripRow where
  «class» : String
  departure_time : String
  distance_value : ℚ
  duration_value : ℚ
  duration_in_traffic_value : Option ℚ
  end_lat : ℚ
  end_lon : ℚ
  fare_value : Option ℚ
  mode : String
  origin : String
  pair : String
  place_id : String
  rank : ℕ
  start_lat : ℚ
  start_lon : ℚ
  status : String
deriving DecidableEq

/-- The four columns the notebook selects from the trips frame before
the attribute join: columns = ('place_id','departure_time',
'distance.value','duration.value'); gfSubset = gfD.loc[:,columns]. -/
structure TripSubsetRow where
  place_id : String
  departure_time : String
  distance_value : ℚ
  duration_value : ℚ
deriving DecidableEq

/-- The column selection gfD.loc[:,columns] applied to one trips row. -/
def selectTripColumns (t : TripRow) : TripSubsetRow :=
  ⟨t.place_id, t.departure_time, t.distance_value, t.duration_value⟩

/-- pandas pd.isna on an optional cell: true exactly on the missing
value marker (NaN / None). -/
def isna {α : Type} (x : Option α) : Bool :=
  x.isNone

/-- The notebook cell dfNan = df[df.city.isna()]: select the rows whose
city cell is missing, building a new frame and not mutating df. -/
def dfNan (df : List PlaceRow) : List PlaceRow :=
  df.filter (fun r => isna r.city)

/-- A geopandas GeoDataFrame: attribute rows paired with their geometry
column, plus the recorded coordinate reference system string. -/
structure GeoFrame (α : Type) where
  rows : List (α × Point)
  crs : String

/-- gpd.points_from_xy(xcol, ycol): attach to each row the point whose
x coordinate is the x column value and whose y coordinate is the y
column value (the notebook uses x = lng, y = lat). -/
def points_from_xy {α : Type} (x y : α → ℚ) (df : List α) : List (α × Point) :=
  df.map (fun r => (r, ((x r : ℝ), (y r : ℝ))))

/-- gpd.GeoDataFrame(df, geometry=gpd.points_from_xy(..), crs=crs). -/
def mkGeoDataFrame {α : Type} (x y : α → ℚ) (crs : String) (df : List α) :
    GeoFrame α :=
  ⟨points_from_xy x y df, crs⟩

/-- GeoDataFrame.to_crs(target): reproject every geometry through the
library's coordinate transformation proj and record the new CRS; both
the inplace=True variant (gfShape.to_crs('epsg:32610', inplace=True))
and the returning variant (gf.to_crs('epsg:32610')) produce this frame;
the attribute part of every row is untouched. -/
def to_crs {α : Type} (proj : Point → Point) (target : String) (gf : GeoFrame α) :
    GeoFrame α :=
  ⟨gf.rows.map (fun r => (r.1, proj r.2)), target⟩

/-- Linear measurement unit attached to a coordinate reference system. -/
inductive LinearUnit : Type
  | metre
  | degree
  | unknownUnit
deriving DecidableEq

/-- Area measurement unit attached to a coordinate reference system. -/
inductive AreaUnit : Type
  | squareMetre
  | squareDegree
  | unknownArea
deriving DecidableEq

/-- The square of a linear unit. -/
def LinearUnit.square : LinearUnit → AreaUnit
  | .metre => .squareMetre
  | .degree => .squareDegree
  | .unknownUnit => .unknownArea

/-- Linear unit of the coordinate reference systems the notebook uses,
per the EPSG registry facts quoted in the notebook's own comments:
EPSG:32610 (UTM zone 10N) is a local coordinate system in metric units
of distance, while EPSG:4326 is latitude/longitude in degrees. -/
def crsLinearUnit (crs : String) : LinearUnit :=
  if crs = "epsg:32610" ∨ crs = "EPSG:32610" then .metre
  else if crs = "epsg:4326" ∨ crs = "EPSG:4326" then .degree
  else .unknownUnit

/-- Unit in which GeoSeries.distance values of a frame are expressed:
the linear unit of the frame's CRS. -/
def distanceUnitOf {α : Type} (gf : GeoFrame α) : LinearUnit :=
  crsLinearUnit gf.crs

/-- Unit in which GeoSeries.area values of a frame are expressed: the
square of the linear unit of the frame's CRS. -/
def areaUnitOf {α : Type} (gf : GeoFrame α) : AreaUnit :=
  (crsLinearUnit gf.crs).square

/-- The set of geometry points of a geoframe, as collected by
shapely.geometry.MultiPoint(gf.geometry.tolist()). -/
def pointSet {α : Type} (gf : GeoFrame α) : Set Point :=
  {p | ∃ r ∈ gf.rows, r.2 = p}

/-- shapely's MultiPoint(..).convex_hull: the convex hull of the
collected point set, as a region of the plane. -/
def convex_hull (s : Set Point) : Set Point :=
  convexHull ℝ s

/-- shapely point.distance(other): straight-line (Euclidean) distance
between two points in the frame's projected coordinates. -/
noncomputable def shapely_distance (a b : Point) : ℝ :=
  Real.sqrt ((a.1 - b.1) ^ 2 + (a.2 - b.2) ^ 2)

/-- The vectorized gfDest.distance(pointDest): one straight-line
distance per row of the frame, each from that row's geometry to the
fixed destination point. -/
noncomputable def geoseries_distance {α : Type} (rows : List (α × Point))
    (dest : Point) : List ℝ :=
  rows.map (fun r => shapely_distance r.2 dest)

/-- The metres-per-mile constant the notebook divides by
(dist_m/1609.34 and .values/1609.34). -/
noncomputable def metresPerMile : ℝ := 1609.34

/-- pandas DataFrame.merge(right, on=key) with the default inner join:
for each left row in order, one output row per right row whose key
equals the left row's key, carrying the columns of both inputs. -/
def merge_on {α β κ : Type} [DecidableEq κ] (kL : α → κ) (kR : β → κ)
    (left : List α) (right : List β) : List (α × β) :=
  left.flatMap (fun l => (right.filter (fun r => decide (kR r = kL l))).map (fun r => (l, r)))

/-- gpd.sjoin(left, right, how="inner", predicate="within"): for each
left row in order, one output row per right row whose geometry contains
the left row's point under the library's within predicate; the output
row keeps the left row (attributes and point geometry) and carries the
right row's attribute columns, the right geometry being dropped. -/
def sjoin_inner_within {α β π : Type} (withinP : Point → π → Bool)
    (left : List (α × Point)) (right : List (β × π)) : List ((α × Point) × β) :=
  left.flatMap (fun l => (right.filter (fun r => withinP l.2 r.2)).map (fun r => (l, r.1)))

/-- The raw, header-level view of a pandas frame as read_csv builds it:
a list of column labels and the rows of cell values, each row aligned
positionally with the labels. -/
structure RawFrame where
  columns : List String
  rows : List (List String)

/-- pandas df.rename(columns={old:new}, inplace=True): every column
label equal to old becomes new, all other labels and all cell data are
left as they are. -/
def df_rename (old new : String) (f : RawFrame) : RawFrame :=
  ⟨f.columns.map (fun c => if c = old then new else c), f.rows⟩

/-- Position of a column label in a header, scanning left to right. -/
def colIndex : List String → String → Option ℕ
  | [], _ => none
  | c :: cs, lbl => if c = lbl then some 0 else (colIndex cs lbl).map (· + 1)

/-- The column of a raw frame under a label: the cell at the label's
position in each row, or none when the label is absent. -/
def getColumn (f : RawFrame) (lbl : String) : Option (List (Option String)) :=
  (colIndex f.columns lbl).map (fun i => f.rows.map (fun r => r.get? i))

/-- Column header of Places_Full.csv as documented in the notebook:
name,address,city,lat,lng,place_id,rating,class,type. -/
def placesColumns : List String :=
  ["name", "address", "city", "lat", "lng", "place_id", "rating", "class", "type"]

/-- Column header of Dist_Out.csv as documented in the notebook. -/
def distColumns : List String :=
  ["class", "departure_time", "distance.value", "duration.value",
   "duration_in_traffic.value", "end_lat", "end_lon", "fare.value", "mode",
   "origin", "pair", "place_id", "rank", "start_lat", "start_lon", "status"]

/-- Format of a remote file the notebook fetches. -/
inductive FileFormat : Type
  | csv
  | geojson
deriving DecidableEq

/-- One remote read the notebook performs. -/
structure RemoteRead where
  url : String
  format : FileFormat
deriving DecidableEq

/-- URL of the places CSV (pd.read_csv(filePath)). -/
def placesURL : String :=
  "https://github.com/uwescience/dssg-pandas-sql-tutorial/raw/master/data/Places_Full.csv"

/-- URL of the trip-distances CSV (gpd.pd.read_csv(..)). -/
def distURL : String :=
  "https://github.com/uwescience/dssg-pandas-sql-tutorial/raw/master/data/Dist_Out.csv"

/-- URL of the neighborhood boundary GeoJSON (gpd.read_file(URL)). -/
def neighborhoodsURL : String :=
  "https://raw.githubusercontent.com/seattleio/seattle-boundaries-data/master/data/neighborhoods.geojson"

/-- Every remote input the notebook fetches, in program order: the two
CSV tables and the one polygon boundary file. -/
def notebookReads : List RemoteRead :=
  [⟨placesURL, .csv⟩, ⟨distURL, .csv⟩, ⟨neighborhoodsURL, .geojson⟩]

/-- Geometry kind carried by an exported file. -/
inductive GeomKind : Type
  | point
  | polygon
deriving DecidableEq

/-- One to_file export the notebook performs. -/
structure FileWrite where
  path : String
  driver : String
  geomKind : GeomKind
deriving DecidableEq

/-- Every file the notebook writes, in program order:
gf.to_file('./data/places.geojson', driver='GeoJSON') for the places
point frame, and gfShape.to_file('./data/myshape.gpkg', driver='GPKG')
for the convex-hull polygon frame (the ESRI-shapefile line is a
comment and never runs). -/
def notebookWrites : List FileWrite :=
  [⟨"./data/places.geojson", "GeoJSON", .point⟩,
   ⟨"./data/myshape.gpkg", "GPKG", .polygon⟩]

/-- Contents of the three fetched input files, already parsed into
rows; the neighborhood polygons are drawn from an arbitrary polygon
type π, each paired with its nhood name attribute. -/
structure NotebookInputs (π : Type) where
  placesCsv : List PlaceRow
  distCsv : List TripRow
  neighborhoodsFile : List (String × π)

/-- The in-memory results and exported file contents of one complete
run of the notebook's cell sequence. -/
structure NotebookOutputs (π : Type) where
  dfNanRows : List PlaceRow
  gf : GeoFrame PlaceRow
  hull : Set Point
  hullUtm : Set Point
  gfPlace : List (TripSubsetRow × (PlaceRow × Point))
  straightDist : List ℝ
  nhoodPlaces : List ((PlaceRow × Point) × String)
  placesGeojsonFile : List (PlaceRow × Point)
  shapeGpkgFile : Set Point

/-- The destination place_id the notebook fixes for the vectorized
distance computation. -/
def pId : String := "ChIJEerXpl0RkFQRDOjfwBQDzlA"

/-- The neighborhood name the notebook selects before the spatial
join. -/
def selectedNeighborhood : String := "University District"

/-- The notebook's complete cell sequence as one pure function of the
three fetched inputs.  The library-internal coordinate transformation
to EPSG:32610 (proj) and the geometric within predicate (withinP) are
parameters; every other step is the embedding of the corresponding
cell, applied in program order with plain variable reuse. -/
noncomputable def notebookRun {π : Type} (proj : Point → Point)
    (withinP : Point → π → Bool) (inp : NotebookInputs π) : NotebookOutputs π :=
  let df := inp.placesCsv
  let gf : GeoFrame PlaceRow := mkGeoDataFrame (fun r => r.lng) (fun r => r.lat) "EPSG:4326" df
  let hull := convex_hull (pointSet gf)
  let gfShapeUtm := Set.image proj hull
  let gf_merc := to_crs proj "epsg:32610" gf
  let gfD : GeoFrame TripRow :=
    mkGeoDataFrame (fun t => t.start_lon) (fun t => t.start_lat) "EPSG:4326" inp.distCsv
  let gfD_merc := to_crs proj "epsg:32610" gfD
  let pointDest :=
    ((gf_merc.rows.filter (fun r => decide (r.1.place_id = pId))).head?).map Prod.snd
  let gfDest := gfD_merc.rows.filter (fun r => decide (r.1.place_id = pId))
  let straight :=
    match pointDest with
    | some d => (geoseries_distance gfDest d).map (fun x => x / metresPerMile)
    | none => []
  let gfSubset := gfD.rows.map (fun r => selectTripColumns r.1)
  let gfPlace := merge_on TripSubsetRow.place_id (fun r : PlaceRow × Point => r.1.place_id)
    gfSubset gf.rows
  let gfNeighborhood :=
    inp.neighborhoodsFile.filter (fun n => decide (n.1 = selectedNeighborhood))
  let nhood := sjoin_inner_within withinP gf.rows gfNeighborhood
  ⟨dfNan df, gf, hull, gfShapeUtm, gfPlace, straight, nhood, gf.rows, gfShapeUtm⟩

/-- Identity placeholder for the coordinate transformation, used to
instantiate the determinism statement at a concrete input. -/
def trivialProj : Point → Point := id

/-- Constant within predicate over a unit polygon type, used to
instantiate the determinism statement at a concrete input. -/
def trivialWithin : Point → Unit → Bool := fun _ _ => true

/-- Empty concrete contents for the three fetched inputs. -/
def emptyInputs : NotebookInputs Unit := ⟨[], [], []⟩

theorem shapely_distance_symm (a b : Point) :
    shapely_distance a b = shapely_distance b a := by
  unfold shapely_distance
  ring_nf

theorem colIndex_map_rename (cs : List String) (old new lbl : String)
    (h1 : lbl ≠ old) (h2 : lbl ≠ new) :
    colIndex (cs.map (fun c => if c = old then new else c)) lbl = colIndex cs lbl := by
  induction cs with
  | nil => rfl
  | cons c cs ih =>
    simp only [List.map_cons, colIndex]
    by_cases hc : c = old
    · subst hc
      simp [Ne.symm h1, Ne.symm h2, ih]
    · simp only [if_neg hc]
      by_cases hl : c = lbl
      · simp [hl]
      · simp only [if_neg hl, ih]

theorem merge_on_mem {α β κ : Type} [DecidableEq κ] (kL : α → κ) (kR : β → κ)
    (L : List α) (R : List β) (t : α) (p : β) :
    (t, p) ∈ merge_on kL kR L R ↔ t ∈ L ∧ p ∈ R ∧ kR p = kL t := by
  simp only [merge_on, List.mem_flatMap, List.mem_map, List.mem_filter,
    decide_eq_true_eq, Prod.mk.injEq]
  constructor
  · rintro ⟨a, ha, r, ⟨hr, hk⟩, rfl, rfl⟩
    exact ⟨ha, hr, hk⟩
  · rintro ⟨ht, hp, hk⟩
    exact ⟨t, ht, p, ⟨hp, hk⟩, rfl, rfl⟩

theorem count_map_mk {α β : Type} [DecidableEq α] [DecidableEq β]
    (R : List β) (a a' : α) (b : β) :
    (R.map (fun r => (a, r))).count (a', b) = if a' = a then R.count b else 0 := by
  induction R with
  | nil => simp
  | cons r R ih =>
    simp only [List.map_cons, List.count_cons, ih]
    by_cases h : a' = a
    · subst h
      by_cases hb : b = r <;> simp_all [Prod.ext_iff]
    · have h' : ¬a = a' := fun he => h he.symm
      by_cases hb : b = r <;> simp_all [Prod.ext_iff]

theorem count_filter_eq {β : Type} [DecidableEq β] (R : List β) (p : β → Bool) (b : β) :
    (R.filter p).count b = if p b then R.count b else 0 := by
  by_cases h : p b = true
  · rw [if_pos h, List.count_filter h]
  · rw [if_neg h]
    exact List.count_eq_zero.2 (fun hm => h (List.mem_filter.1 hm).2)

theorem merge_on_count {α β κ : Type} [DecidableEq α] [DecidableEq β] [DecidableEq κ]
    (kL : α → κ) (kR : β → κ) (L : List α) (R : List β) (t : α) (p : β) :
    (merge_on kL kR L R).count (t, p) =
      if kL t = kR p then L.count t * R.count p else 0 := by
  induction L with
  | nil => simp [merge_on]
  | cons x L ih =>
    have hstep : merge_on kL kR (x :: L) R =
        ((R.filter (fun r => decide (kR r = kL x))).map (fun r => (x, r))) ++
          merge_on kL kR L R := by
      simp [merge_on]
    rw [hstep, List.count_append, ih, count_map_mk, count_filter_eq, List.count_cons]
    by_cases h1 : t = x
    · subst h1
      by_cases h2 : kL t = kR p
      · have hd : decide (kR p = kL t) = true := decide_eq_true h2.symm
        simp [hd, h2]
        ring
      · have hd : decide (kR p = kL t) = false := decide_eq_false (fun he => h2 he.symm)
        simp [hd, h2]
    · have hb : (t == x) = false := by simp [h1]
      by_cases h2 : kL t = kR p
      · simp [h1, hb, h2]
        exact Or.inl (fun he => h1 he.symm)
      · simp [h1, hb, h2]

/-- Concrete one-row geoframe in the notebook's initial CRS, used to
instantiate hypotheses of the frame-level theorems. -/
def demoFrame : GeoFrame Unit := ⟨[((), ((0 : ℝ), (0 : ℝ)))], "EPSG:4326"⟩

/-- Concrete raw places frame with the documented CSV header and one
data row, used to instantiate the rename theorem. -/
def demoRawFrame : RawFrame :=
  ⟨placesColumns,
   [["Trader Joes", "1700 East Madison Street", "Seattle", "47.6158665",
     "-122.3099133", "ChIJx0M1ztNqkFQRtgspEllQxk8", "4.5", "supermarket", ""]]⟩

/-- Claim C1: the polygon computed from the places point set via
shapely MultiPoint(gf.geometry.tolist()).convex_hull is the convex
hull of that set: every place point lies in it, it is convex, it is
contained in every convex region T containing the points (so it is the
smallest such region), and each of its vertices (extreme points) is
one of the place points. -/
theorem places_convex_hull_spec {α : Type} (gf : GeoFrame α) (T : Set Point)
    (hT : Convex ℝ T) (hS : pointSet gf ⊆ T) :
    pointSet gf ⊆ convex_hull (pointSet gf) ∧
    Convex ℝ (convex_hull (pointSet gf)) ∧
    convex_hull (pointSet gf) ⊆ T ∧
    (convex_hull (pointSet gf)).extremePoints ℝ ⊆ pointSet gf :=
  ⟨subset_convexHull ℝ _, convex_convexHull ℝ _, convexHull_min hS hT,
    extremePoints_convexHull_subset⟩

/-- Witness for the convex-hull theorem at a concrete one-point frame
and the convex region Set.univ. -/
theorem places_convex_hull_spec_witness :
    pointSet demoFrame ⊆ convex_hull (pointSet demoFrame) ∧
    Convex ℝ (convex_hull (pointSet demoFrame)) ∧
    convex_hull (pointSet demoFrame) ⊆ Set.univ ∧
    (convex_hull (pointSet demoFrame)).extremePoints ℝ ⊆ pointSet demoFrame :=
  places_convex_hull_spec demoFrame Set.univ convex_univ (Set.subset_univ _)

/-- Claim C2: gpd.sjoin(gf, gfNeighborhood, how="inner",
predicate="within") contains a combined row (l, b) exactly when l is a
place row of the left frame whose point geometry lies within some
polygon of the right frame carrying the attribute columns b; place
rows within no right polygon therefore never appear. -/
theorem sjoin_within_spec {α β π : Type} (withinP : Point → π → Bool)
    (left : List (α × Point)) (right : List (β × π)) (l : α × Point) (b : β) :
    (l, b) ∈ sjoin_inner_within withinP left right ↔
      l ∈ left ∧ ∃ poly, (b, poly) ∈ right ∧ withinP l.2 poly = true := by
  simp only [sjoin_inner_within, List.mem_flatMap, List.mem_map, List.mem_filter,
    Prod.mk.injEq]
  constructor
  · rintro ⟨a, ha, r, ⟨hr, hw⟩, heq1, heq2⟩
    subst heq1
    subst heq2
    exact ⟨ha, r.2, by simpa using hr, hw⟩
  · rintro ⟨hl, poly, hbp, hw⟩
    exact ⟨l, hl, (b, poly), ⟨hbp, hw⟩, rfl, rfl⟩

/-- Claim C3: gfSubset.merge(gf, on='place_id') (pandas default inner
join) contains a combined row (t, p) exactly when t is a row of the
trips subset and p a row of the places frame with equal place_id
values, and its multiplicity is the product of the input
multiplicities, so each matching pair contributes exactly one output
row; rows whose place_id has no match on the other side are absent. -/
theorem merge_place_id_spec {β : Type} [DecidableEq β] (kR : β → String)
    (trips : List TripSubsetRow) (places : List β) (t : TripSubsetRow) (p : β) :
    ((t, p) ∈ merge_on TripSubsetRow.place_id kR trips places ↔
      t ∈ trips ∧ p ∈ places ∧ t.place_id = kR p) ∧
    (merge_on TripSubsetRow.place_id kR trips places).count (t, p) =
      if t.place_id = kR p then trips.count t * places.count p else 0 := by
  refine ⟨?_, merge_on_count _ _ _ _ _ _⟩
  rw [merge_on_mem]
  constructor
  · rintro ⟨m1, m2, m3⟩
    exact ⟨m1, m2, m3.symm⟩
  · rintro ⟨m1, m2, m3⟩
    exact ⟨m1, m2, m3.symm⟩

/-- Claim C4: to_crs from EPSG:4326 to EPSG:32610 (used both with
inplace=True on gfShape and as a returning call on gf and gfD) keeps
the number of rows and every non-geometry attribute column, records
the new CRS, and the recorded CRS afterwards carries metric units, so
distances are in metres and areas in square metres. -/
theorem to_crs_reproject_spec {α : Type} (proj : Point → Point) (gf : GeoFrame α)
    (h : gf.crs = "EPSG:4326") :
    (to_crs proj "epsg:32610" gf).rows.length = gf.rows.length ∧
    (to_crs proj "epsg:32610" gf).rows.map Prod.fst = gf.rows.map Prod.fst ∧
    (to_crs proj "epsg:32610" gf).crs = "epsg:32610" ∧
    distanceUnitOf (to_crs proj "epsg:32610" gf) = LinearUnit.metre ∧
    areaUnitOf (to_crs proj "epsg:32610" gf) = AreaUnit.squareMetre := by
  refine ⟨?_, ?_, rfl, rfl, rfl⟩ <;> simp [to_crs]

/-- Witness for the reprojection theorem at a concrete frame whose
recorded CRS is EPSG:4326. -/
theorem to_crs_reproject_spec_witness :
    (to_crs trivialProj "epsg:32610" demoFrame).rows.length = demoFrame.rows.length ∧
    (to_crs trivialProj "epsg:32610" demoFrame).rows.map Prod.fst
      = demoFrame.rows.map Prod.fst ∧
    (to_crs trivialProj "epsg:32610" demoFrame).crs = "epsg:32610" ∧
    distanceUnitOf (to_crs trivialProj "epsg:32610" demoFrame) = LinearUnit.metre ∧
    areaUnitOf (to_crs trivialProj "epsg:32610" demoFrame) = AreaUnit.squareMetre :=
  to_crs_reproject_spec trivialProj demoFrame rfl

/-- Claim C5: the notebook fetches exactly two tabular CSV files over
the network, at the fixed places and distances URLs with the documented
column headers sharing the place_id key, and its only other remote
input is the one externally hosted polygon boundary file. -/
theorem notebook_reads_spec :
    (notebookReads.filter (fun r => decide (r.format = FileFormat.csv))).map RemoteRead.url
      = [placesURL, distURL] ∧
    notebookReads.filter (fun r => decide (r.format ≠ FileFormat.csv))
      = [⟨neighborhoodsURL, FileFormat.geojson⟩] ∧
    notebookReads.length = 3 ∧
    placesColumns = ["name", "address", "city", "lat", "lng", "place_id", "rating",
      "class", "type"] ∧
    "place_id" ∈ placesColumns ∧ "place_id" ∈ distColumns :=
  ⟨rfl, rfl, rfl, rfl, by decide, by decide⟩

/-- Claim C6: a place row lacks a city exactly when its city field is
the missing-value marker (pandas NaN, embedded as none), and the cell
selection df[df.city.isna()] returns exactly the rows whose city is
missing, as a sublist of the untouched original frame. -/
theorem city_isna_spec (df : List PlaceRow) (r : PlaceRow) :
    (r ∈ dfNan df ↔ r ∈ df ∧ r.city = none) ∧
    (isna r.city = true ↔ r.city = none) ∧
    (dfNan df).Sublist df := by
  refine ⟨?_, ?_, List.filter_sublist df⟩ <;>
    simp [dfNan, isna, List.mem_filter, Option.isNone_iff_eq_none]

/-- Claim C7: the notebook writes exactly two geometry files: the
places point frame as GeoJSON and the convex-hull polygon frame as
GeoPackage, and nothing else. -/
theorem notebook_writes_spec :
    notebookWrites.length = 2 ∧
    notebookWrites = [⟨"./data/places.geojson", "GeoJSON", GeomKind.point⟩,
      ⟨"./data/myshape.gpkg", "GPKG", GeomKind.polygon⟩] ∧
    (notebookWrites.filter (fun w => decide (w.geomKind = GeomKind.point))).map
      FileWrite.path = ["./data/places.geojson"] ∧
    (notebookWrites.filter (fun w => decide (w.geomKind = GeomKind.polygon))).map
      FileWrite.path = ["./data/myshape.gpkg"] :=
  ⟨rfl, rfl, rfl, rfl⟩

/-- Claim C8: the notebook's complete cell sequence is a single pure
function of the three fetched inputs, so two runs on equal input
contents yield equal in-memory results and equal output file
contents. -/
theorem notebook_run_deterministic_spec {π : Type} (proj : Point → Point)
    (withinP : Point → π → Bool) (i₁ i₂ : NotebookInputs π) (h : i₁ = i₂) :
    notebookRun proj withinP i₁ = notebookRun proj withinP i₂ := by
  rw [h]

/-- Witness for determinism at concrete empty input contents. -/
theorem notebook_run_deterministic_spec_witness :
    notebookRun trivialProj trivialWithin emptyInputs
      = notebookRun trivialProj trivialWithin emptyInputs :=
  notebook_run_deterministic_spec trivialProj trivialWithin emptyInputs emptyInputs rfl

/-- Claim C9: df.rename(columns={'class':'place_class'}, inplace=True)
on the places frame leaves no column named class, renames the header
to place_class in place, leaves every data row untouched (so the
place_class column holds exactly the values the class column held),
and leaves the column of every other label unchanged. -/
theorem rename_class_spec (f : RawFrame) (lbl : String)
    (h : f.columns = placesColumns) (h1 : lbl ≠ "class") (h2 : lbl ≠ "place_class") :
    "class" ∉ (df_rename "class" "place_class" f).columns ∧
    (df_rename "class" "place_class" f).columns =
      ["name", "address", "city", "lat", "lng", "place_id", "rating", "place_class",
       "type"] ∧
    (df_rename "class" "place_class" f).rows = f.rows ∧
    getColumn (df_rename "class" "place_class" f) "place_class" = getColumn f "class" ∧
    getColumn (df_rename "class" "place_class" f) lbl = getColumn f lbl := by
  have hcols : (df_rename "class" "place_class" f).columns =
      ["name", "address", "city", "lat", "lng", "place_id", "rating", "place_class",
       "type"] := by
    simp [df_rename, h, placesColumns]
  refine ⟨?_, hcols, rfl, ?_, ?_⟩
  · rw [hcols]
    decide
  · unfold getColumn
    rw [hcols, h]
    simp [df_rename, colIndex, placesColumns]
  · unfold getColumn df_rename
    rw [colIndex_map_rename f.columns "class" "place_class" lbl h1 h2]

/-- Witness for the rename theorem at the concrete one-row raw places
frame, with city as the untouched other label. -/
theorem rename_class_spec_witness :
    "class" ∉ (df_rename "class" "place_class" demoRawFrame).columns ∧
    (df_rename "class" "place_class" demoRawFrame).columns =
      ["name", "address", "city", "lat", "lng", "place_id", "rating", "place_class",
       "type"] ∧
    (df_rename "class" "place_class" demoRawFrame).rows = demoRawFrame.rows ∧
    getColumn (df_rename "class" "place_class" demoRawFrame) "place_class"
      = getColumn demoRawFrame "class" ∧
    getColumn (df_rename "class" "place_class" demoRawFrame) "city"
      = getColumn demoRawFrame "city" :=
  rename_class_spec demoRawFrame "city" rfl (by decide) (by decide)

/-- Claim C10: the vectorized gfDest.distance(pointDest) computes at
every row index the same value as the scalar
pointDest.distance(pointOrig) applied to that row's point, and the two
still agree after the shared division by 1609.34 metres per mile. -/
theorem vectorized_distance_spec {α : Type} (rows : List (α × Point)) (dest : Point)
    (i : ℕ) :
    (geoseries_distance rows dest)[i]?
      = (rows[i]?).map (fun r => shapely_distance dest r.2) ∧
    ((geoseries_distance rows dest).map (fun x => x / metresPerMile))[i]?
      = (rows[i]?).map (fun r => shapely_distance dest r.2 / metresPerMile) := by
  constructor <;>
  · simp only [geoseries_distance, List.map_map, List.getElem?_map, Function.comp]
    cases rows[i]? <;> simp [shapely_distance_symm]

end Tutorial
